import Mathlib

/-!
# Verification of the concordia OptionsPerception agent factory

A shallow embedding of two source files:

* `concordia/typing/entity.py` — the `OutputType` enum, the `ActionSpec`
  dataclass, the default call to action and the default action spec.
* `concordia/factory/agent/anish_agent-OptionsPerception.py` — the
  `get_pomodoro_reminder` helper and the `build_agent` factory.

The embedding records, for each context component, its class name (the
registry key the source derives by reflection) and its declared dependency
mapping (component name → label).  Prompt text bodies, logging channels and
the language-model plumbing are external collaborators and carry no
structure the claims depend on; the external objects (model, memory bank,
clock) are modelled as opaque identifiers threaded through construction.
Python dicts are modelled as insertion-ordered association lists with
overwrite-on-duplicate-key semantics, matching CPython.
-/

namespace Concordia

/-! ## Python dict semantics -/

/-- Python dict assignment `d[k] = v`: overwrite in place if the key is
present (keeping its position), otherwise append at the end. -/
def dictInsert {α : Type} (d : List (String × α)) (k : String) (v : α) :
    List (String × α) :=
  match d with
  | [] => [(k, v)]
  | (k0, v0) :: rest =>
      if k0 = k then (k, v) :: rest else (k0, v0) :: dictInsert rest k v

/-- Python `d.get(k, default)`. -/
def dictGetD {α : Type} (d : List (String × α)) (k : String) (default : α) : α :=
  match d with
  | [] => default
  | (k0, v0) :: rest => if k0 = k then v0 else dictGetD rest k default

/-- Python `d[k]` lookup, `none` when absent. -/
def dictGet {α : Type} (d : List (String × α)) (k : String) : Option α :=
  match d with
  | [] => none
  | (k0, v0) :: rest => if k0 = k then some v0 else dictGet rest k

/-- Python `list(d.keys())`: keys in insertion order. -/
def dictKeys {α : Type} (d : List (String × α)) : List String :=
  d.map Prod.fst

/-- Python `d.update(d2)`: assign every pair of `d2` into `d` in order. -/
def dictUpdate {α : Type} (d d2 : List (String × α)) : List (String × α) :=
  d2.foldl (fun acc kv => dictInsert acc kv.1 kv.2) d

/-- Python `list.insert(i, x)`: insert before index `i`, appending when
`i` is beyond the end. -/
def listInsert {α : Type} (xs : List α) (i : Nat) (x : α) : List α :=
  match i, xs with
  | 0, xs => x :: xs
  | _ + 1, [] => [x]
  | i + 1, y :: ys => y :: listInsert ys i x

/-! ## `concordia/typing/entity.py` -/

/-- `OutputType`: the type of output that an entity can produce
(`entity.py` lines 25–30).  The spec calls the third kind NUMERIC; the
enum member realizing it is named `FLOAT`. -/
inductive OutputType : Type
  | FREE : OutputType
  | CHOICE : OutputType
  | FLOAT : OutputType
  deriving DecidableEq, Repr

/-- `ActionSpec`: a specification of the action that an entity is queried
for (`entity.py` lines 33–48).  A plain frozen dataclass: every field
combination that typechecks is constructible, with `options` and `tag`
defaulting to absent. -/
structure ActionSpec : Type where
  call_to_action : String
  output_type : OutputType
  options : Option (List String) := none
  tag : Option String := none
  deriving DecidableEq, Repr

/-- `DEFAULT_CALL_TO_ACTION` (`entity.py` lines 51–59). -/
def DEFAULT_CALL_TO_ACTION : String :=
  "What would {name} do for the next {timedelta}? " ++
  "Give a specific activity. Pick an activity that " ++
  "would normally take about {timedelta} to complete. " ++
  "If the selected action has a direct or indirect object then it " ++
  "must be specified explicitly. For example, it is valid to respond " ++
  "with \"{name} votes for Caroline because...\" but not " ++
  "valid to respond with \"{name} votes because...\"."

/-- `DEFAULT_ACTION_SPEC` (`entity.py` lines 61–66): the default argument
of `Entity.act` (line 92), used when `act` is called without an explicit
specification. -/
def DEFAULT_ACTION_SPEC : ActionSpec :=
  { call_to_action := DEFAULT_CALL_TO_ACTION
    output_type := OutputType.FREE
    options := none
    tag := some "action" }

/-! ## External collaborators (opaque identifiers) -/

/-- The language model oracle, out of scope beyond identity. -/
structure LanguageModel : Type where
  id : Nat
  deriving DecidableEq, Repr

/-- The associative memory store, out of scope beyond identity. -/
structure AssociativeMemory : Type where
  id : Nat
  deriving DecidableEq, Repr

/-- `legacy_associative_memory.AssociativeMemoryBank(memory)`. -/
structure AssociativeMemoryBank : Type where
  memory : AssociativeMemory
  deriving DecidableEq, Repr

/-- The game clock, out of scope beyond identity. -/
structure MultiIntervalClock : Type where
  id : Nat
  deriving DecidableEq, Repr

/-! ## Components and the agent -/

/-- The Python class of each context component built by `build_agent`;
`_get_class_name` reads this class name off the live object. -/
inductive ComponentKind : Type
  | Instructions
  | Observation
  | ObservationSummary
  | ReportFunction
  | IdentityWithoutPreAct
  | SelfPerception
  | Constant
  | SituationPerception
  | PersonBySituation
  | ScheduledHint
  | AllSimilarMemories
  | AvailableOptionsPerception
  | BestOptionPerception
  | MemoryComponent
  deriving DecidableEq, Repr

/-- The class name `_get_class_name` returns for each component kind. -/
def className : ComponentKind → String
  | ComponentKind.Instructions => "Instructions"
  | ComponentKind.Observation => "Observation"
  | ComponentKind.ObservationSummary => "ObservationSummary"
  | ComponentKind.ReportFunction => "ReportFunction"
  | ComponentKind.IdentityWithoutPreAct => "IdentityWithoutPreAct"
  | ComponentKind.SelfPerception => "SelfPerception"
  | ComponentKind.Constant => "Constant"
  | ComponentKind.SituationPerception => "SituationPerception"
  | ComponentKind.PersonBySituation => "PersonBySituation"
  | ComponentKind.ScheduledHint => "ScheduledHint"
  | ComponentKind.AllSimilarMemories => "AllSimilarMemories"
  | ComponentKind.AvailableOptionsPerception => "AvailableOptionsPerception"
  | ComponentKind.BestOptionPerception => "BestOptionPerception"
  | ComponentKind.MemoryComponent => "MemoryComponent"

/-- A context component as `build_agent` wires it: its class, its declared
dependency mapping (component name → label), and, for the memory
component only, the wrapped memory bank. -/
structure ContextComponent : Type where
  kind : ComponentKind
  components : List (String × String) := []
  memoryBank : Option AssociativeMemoryBank := none
  deriving DecidableEq, Repr

/-- `_get_class_name(object_)` on a wired component. -/
def get_class_name (c : ContextComponent) : String :=
  className c.kind

/-- `ConcatActComponent`: holds the model, the clock and the fixed
component order used to concatenate pre-act context. -/
structure ConcatActComponent : Type where
  model : LanguageModel
  clock : MultiIntervalClock
  component_order : List String
  deriving DecidableEq, Repr

/-- `EntityAgentWithLogging`: the agent returned by `build_agent`. -/
structure EntityAgentWithLogging : Type where
  agent_name : String
  act_component : ConcatActComponent
  context_components : List (String × ContextComponent)
  deriving DecidableEq, Repr

/-- `formative_memories.AgentConfig`, restricted to the fields
`build_agent` reads: `name`, `goal` (falsy when empty) and `extras`
(only the truthiness of `extras.get('main_character', False)` is read). -/
structure AgentConfig : Type where
  name : String
  goal : String := ""
  extras : List (String × Bool) := []
  deriving DecidableEq, Repr

/-- Python exceptions raised at build time. -/
inductive PyError : Type
  | valueError : String → PyError
  deriving DecidableEq, Repr

/-- The `ValueError` message of `build_agent` lines 66–69. -/
def mainCharacterError : String :=
  "This function is meant for a main character " ++
  "but it was called on a supporting character."

/-- Modelled from the spec: "A reserved name denotes the memory-backed
component."  The constant `DEFAULT_MEMORY_COMPONENT_NAME` lives in
`concordia/components/agent/memory_component.py`, which is not under
`src/`; only its reserved-name role matters to the claims. -/
def DEFAULT_MEMORY_COMPONENT_NAME : String := "__memory__"

/-! ## `get_pomodoro_reminder` -/

/-- `get_pomodoro_reminder` (factory lines 31–37): returns a closure that
ignores both of its arguments and formats a fixed reminder string. -/
def get_pomodoro_reminder {α β : Type} (overarching_goal agent_name : String) :
    α → β → String :=
  fun _chain_of_thought _clock_now =>
    agent_name ++ " should stay on topic: " ++ overarching_goal ++ "."

/-! ## `build_agent` -/

/-- The dict comprehension of `build_agent` lines 279–281:
`{_get_class_name(component): component for component in entity_components}`.
Python dict semantics: a duplicated key silently keeps only the
last-inserted component. -/
def componentsByName (entity_components : List ContextComponent) :
    List (String × ContextComponent) :=
  entity_components.foldl
    (fun d component => dictInsert d (get_class_name component) component) []

/-- `build_agent` (factory lines 44–305).  `update_time_interval` is
deleted on entry (line 64) and never read.  Raising `ValueError` is
modelled as returning `Except.error`. -/
def build_agent (config : AgentConfig) (model : LanguageModel)
    (memory : AssociativeMemory) (clock : MultiIntervalClock)
    (update_time_interval : Int) :
    Except PyError EntityAgentWithLogging :=
  if dictGetD config.extras "main_character" false = false then
    Except.error (PyError.valueError mainCharacterError)
  else
    let agent_name := config.name
    let raw_memory : AssociativeMemoryBank := { memory := memory }
    let instructions : ContextComponent := { kind := ComponentKind.Instructions }
    let observation_label := "\nObservation"
    let observation : ContextComponent := { kind := ComponentKind.Observation }
    let observation_summary_label := "\nSummary of recent observations"
    let observation_summary : ContextComponent :=
      { kind := ComponentKind.ObservationSummary }
    let time_display : ContextComponent := { kind := ComponentKind.ReportFunction }
    let identity_label := "\nIdentity characteristics"
    let identity_characteristics : ContextComponent :=
      { kind := ComponentKind.IdentityWithoutPreAct }
    let self_perception_label :=
      "\nQuestion: What kind of person is " ++ agent_name ++ "?\nAnswer"
    let self_perception : ContextComponent :=
      { kind := ComponentKind.SelfPerception
        components := [(get_class_name identity_characteristics, identity_label)] }
    let paranoia : ContextComponent := { kind := ComponentKind.Constant }
    let situation_perception_label :=
      "\nQuestion: What kind of situation is " ++ agent_name ++
      " in right now?\nAnswer"
    let situation_perception : ContextComponent :=
      { kind := ComponentKind.SituationPerception
        components :=
          [(get_class_name observation, observation_label),
           (get_class_name observation_summary, observation_summary_label)] }
    let person_by_situation : ContextComponent :=
      { kind := ComponentKind.PersonBySituation
        components :=
          [(get_class_name self_perception, self_perception_label),
           (get_class_name situation_perception, situation_perception_label)] }
    let pomodoro : ContextComponent :=
      { kind := ComponentKind.ScheduledHint
        components :=
          [(get_class_name observation_summary, observation_summary_label),
           (get_class_name situation_perception, situation_perception_label),
           (get_class_name time_display, "The current date/time is")] }
    let relevant_memories_label := "\nRecalled memories and observations"
    let relevant_memories : ContextComponent :=
      { kind := ComponentKind.AllSimilarMemories
        components :=
          [(get_class_name observation_summary, observation_summary_label),
           (get_class_name time_display, "The current date/time is")] }
    -- `if config.goal:` — a goal is present exactly when the string is truthy.
    let goal_label := "\nOverarching goal"
    let overarching_goal : Option ContextComponent :=
      if config.goal ≠ "" then some { kind := ComponentKind.Constant } else none
    let options_perception_components : List (String × String) :=
      if config.goal ≠ "" then dictInsert [] goal_label goal_label else []
    let options_perception_components :=
      dictUpdate options_perception_components
        [(get_class_name observation, observation_label),
         (get_class_name observation_summary, observation_summary_label),
         (get_class_name relevant_memories, relevant_memories_label)]
    let options_perception_label :=
      "\nQuestion: Which options are available to " ++ agent_name ++
      " right now?\nAnswer"
    let options_perception : ContextComponent :=
      { kind := ComponentKind.AvailableOptionsPerception
        components := options_perception_components }
    let best_option_perception_components : List (String × String) :=
      if config.goal ≠ "" then dictInsert [] goal_label goal_label else []
    let best_option_perception_components :=
      dictUpdate best_option_perception_components
        [(get_class_name observation, observation_label),
         (get_class_name observation_summary, observation_summary_label),
         (get_class_name relevant_memories, relevant_memories_label),
         (get_class_name options_perception, options_perception_label)]
    let best_option_perception : ContextComponent :=
      { kind := ComponentKind.BestOptionPerception
        components := best_option_perception_components }
    let entity_components : List ContextComponent :=
      [instructions,
       time_display,
       observation,
       observation_summary,
       relevant_memories,
       self_perception,
       paranoia,
       situation_perception,
       person_by_situation,
       options_perception,
       best_option_perception,
       pomodoro,
       identity_characteristics]
    let components_of_agent := componentsByName entity_components
    let components_of_agent :=
      dictInsert components_of_agent DEFAULT_MEMORY_COMPONENT_NAME
        { kind := ComponentKind.MemoryComponent, memoryBank := some raw_memory }
    let component_order := dictKeys components_of_agent
    let (components_of_agent, component_order) :=
      match overarching_goal with
      | some goal_component =>
          (dictInsert components_of_agent goal_label goal_component,
           -- Place goal after the instructions.
           listInsert component_order 1 goal_label)
      | none => (components_of_agent, component_order)
    let act_component : ConcatActComponent :=
      { model := model, clock := clock, component_order := component_order }
    Except.ok
      { agent_name := agent_name
        act_component := act_component
        context_components := components_of_agent }

/-! ## Derived checks used by the theorems -/

/-- Every dependency name declared in any registered component's
`components` mapping is a key of the registry. -/
def depsResolve (a : EntityAgentWithLogging) : Bool :=
  a.context_components.all fun p =>
    p.2.components.all fun q => (dictKeys a.context_components).contains q.1

/-- The registry's component names are pairwise distinct. -/
def registryNamesNodup (a : EntityAgentWithLogging) : Bool :=
  decide (dictKeys a.context_components).Nodup

/-! ## Theorems for the claims -/

/-- C1: for every configuration with a non-empty overarching goal (and the
main-character flag set, without which construction fails), `build_agent`
produces a component order whose index 0 is the instructions entry and
whose index 1 is the goal component's name, even though the goal component
is inserted into the name-to-component mapping last (after the memory
component). -/
theorem build_agent_goal_placed_after_instructions (c : AgentConfig)
    (model : LanguageModel) (memory : AssociativeMemory)
    (clock : MultiIntervalClock) (t : Int)
    (hmain : dictGetD c.extras "main_character" false = true)
    (hgoal : c.goal ≠ "") :
    ∃ a, build_agent c model memory clock t = Except.ok a ∧
      a.act_component.component_order[0]? =
        some (className ComponentKind.Instructions) ∧
      a.act_component.component_order[1]? = some "\nOverarching goal" ∧
      (dictGet a.context_components "\nOverarching goal").isSome = true ∧
      (dictKeys a.context_components).getLast? = some "\nOverarching goal" := by
  unfold build_agent
  rw [hmain]
  rw [if_neg (by decide)]
  simp only [if_pos hgoal]
  exact ⟨_, rfl, rfl, rfl, rfl, rfl⟩

/-- Witness for C1 at the spec's own scenario: entity "Bob" with goal
"find the key". -/
theorem build_agent_goal_placed_after_instructions_witness :
    ∃ a, build_agent
        { name := "Bob", goal := "find the key",
          extras := [("main_character", true)] } ⟨0⟩ ⟨0⟩ ⟨0⟩ 0 =
        Except.ok a ∧
      a.act_component.component_order[0]? =
        some (className ComponentKind.Instructions) ∧
      a.act_component.component_order[1]? = some "\nOverarching goal" ∧
      (dictGet a.context_components "\nOverarching goal").isSome = true ∧
      (dictKeys a.context_components).getLast? = some "\nOverarching goal" :=
  build_agent_goal_placed_after_instructions _ _ _ _ _ (by decide) (by decide)

/-- C2: a configuration whose extras do not flag the character as a main
character makes `build_agent` fail at build time — no agent is returned,
so no `act` or `observe` call on a built agent can ever happen — with the
error whose message names the main-character requirement (the source
raises `ValueError`; the spec files this build-time class of failures
under `ConfigurationError`). -/
theorem build_agent_rejects_supporting_character (c : AgentConfig)
    (model : LanguageModel) (memory : AssociativeMemory)
    (clock : MultiIntervalClock) (t : Int)
    (hmain : dictGetD c.extras "main_character" false = false) :
    build_agent c model memory clock t =
      Except.error (PyError.valueError mainCharacterError) := by
  unfold build_agent
  rw [hmain]
  rfl

/-- Witness for C2: empty extras leave the flag at its default `False`. -/
theorem build_agent_rejects_supporting_character_witness :
    build_agent { name := "Ann", goal := "", extras := [] } ⟨0⟩ ⟨0⟩ ⟨0⟩ 0 =
      Except.error (PyError.valueError mainCharacterError) :=
  build_agent_rejects_supporting_character _ _ _ _ 0 rfl

/-- C3: every agent `build_agent` builds (with or without a goal; when the
main-character flag is unset, no agent is built at all) has a registry in
which every dependency name declared in any component's `components`
mapping is a registered component name. -/
theorem build_agent_deps_resolve (c : AgentConfig) (model : LanguageModel)
    (memory : AssociativeMemory) (clock : MultiIntervalClock) (t : Int)
    (hmain : dictGetD c.extras "main_character" false = true) :
    (build_agent c model memory clock t).map depsResolve = Except.ok true := by
  unfold build_agent
  rw [hmain]
  rw [if_neg (by decide)]
  by_cases hg : c.goal = ""
  · simp only [if_neg (not_not_intro hg)]
    rfl
  · simp only [if_pos hg]
    rfl

/-- Witness for C3 in the with-goal case. -/
theorem build_agent_deps_resolve_witness :
    (build_agent
        { name := "Bob", goal := "find the key",
          extras := [("main_character", true)] } ⟨0⟩ ⟨0⟩ ⟨0⟩ 0).map
      depsResolve = Except.ok true :=
  build_agent_deps_resolve _ _ _ _ _ (by decide)

/-- C4 counterexample: the registry construction of `build_agent`
(the dict comprehension keyed by class name, lines 279–281) cannot fail:
it is a total function into a mapping.  Registering two distinct
components under the same name silently keeps only the later one —
no `ConfigurationError` (nor any error) is raised, refuting the claim
that construction fails on a duplicate name. -/
theorem componentsByName_duplicate_silently_overwrites :
    componentsByName
        [{ kind := ComponentKind.Constant },
         { kind := ComponentKind.Constant,
           components := [("Observation", "\nObservation")] }] =
      [("Constant",
        { kind := ComponentKind.Constant,
          components := [("Observation", "\nObservation")] })] ∧
    ({ kind := ComponentKind.Constant } : ContextComponent) ≠
      { kind := ComponentKind.Constant,
        components := [("Observation", "\nObservation")] } := by
  constructor
  · rfl
  · decide

/-- C4 amended: registry construction performs no uniqueness validation —
a duplicated name silently keeps only the last component inserted under
it — but in `build_agent`'s fixed composition the component names are in
fact pairwise distinct, so every built agent's registry has unique
names. -/
theorem build_agent_registry_names_unique (c : AgentConfig)
    (model : LanguageModel) (memory : AssociativeMemory)
    (clock : MultiIntervalClock) (t : Int)
    (hmain : dictGetD c.extras "main_character" false = true) :
    (build_agent c model memory clock t).map registryNamesNodup =
      Except.ok true := by
  unfold build_agent
  rw [hmain]
  rw [if_neg (by decide)]
  by_cases hg : c.goal = ""
  · simp only [if_neg (not_not_intro hg)]
    rfl
  · simp only [if_pos hg]
    rfl

/-- Witness for the amended C4 in the with-goal case. -/
theorem build_agent_registry_names_unique_witness :
    (build_agent
        { name := "Bob", goal := "find the key",
          extras := [("main_character", true)] } ⟨0⟩ ⟨0⟩ ⟨0⟩ 0).map
      registryNamesNodup = Except.ok true :=
  build_agent_registry_names_unique _ _ _ _ _ (by decide)

/-- C5: every action specification's output kind is exactly one of the
three enum members — FREE, CHOICE, and the numeric kind, which the enum
names `FLOAT` — and these three are pairwise distinct; the enum admits no
other member. -/
theorem actionSpec_output_type_exhaustive :
    (∀ s : ActionSpec,
      s.output_type = OutputType.FREE ∨ s.output_type = OutputType.CHOICE ∨
        s.output_type = OutputType.FLOAT) ∧
    OutputType.FREE ≠ OutputType.CHOICE ∧
    OutputType.FREE ≠ OutputType.FLOAT ∧
    OutputType.CHOICE ≠ OutputType.FLOAT := by
  refine ⟨fun s => ?_, by decide, by decide, by decide⟩
  cases h : s.output_type
  · exact Or.inl rfl
  · exact Or.inr (Or.inl rfl)
  · exact Or.inr (Or.inr rfl)

/-- C6 counterexample: `ActionSpec` is a plain frozen dataclass with no
validation tying `options` to the output kind — a FREE spec carrying
options is a perfectly constructible value of the type, refuting the
claim that options are present only when the kind is CHOICE. -/
theorem actionSpec_free_with_options_constructible :
    ¬ (∀ s : ActionSpec, s.options ≠ none →
        s.output_type = OutputType.CHOICE) := by
  intro h
  have hc :=
    h { call_to_action := DEFAULT_CALL_TO_ACTION
        output_type := OutputType.FREE
        options := some ["go left", "go right"]
        tag := some "action" } (by simp)
  exact absurd hc (by decide)

/-- C6 amended: the type leaves `options` unconstrained by output kind;
it merely defaults to absent when not supplied, for every output kind,
and the one action spec the program itself defines — the FREE default
spec — carries no options. -/
theorem actionSpec_options_default_absent :
    (∀ (cta : String) (ot : OutputType),
      ({ call_to_action := cta, output_type := ot } : ActionSpec).options =
        none) ∧
    DEFAULT_ACTION_SPEC.output_type = OutputType.FREE ∧
    DEFAULT_ACTION_SPEC.options = none :=
  ⟨fun _ _ => rfl, rfl, rfl⟩

/-- C7: the default action spec — the default argument of `Entity.act` —
has free-form output kind, the fixed default call-to-action template, no
options, and tag "action". -/
theorem default_action_spec_fields :
    DEFAULT_ACTION_SPEC.output_type = OutputType.FREE ∧
    DEFAULT_ACTION_SPEC.call_to_action = DEFAULT_CALL_TO_ACTION ∧
    DEFAULT_ACTION_SPEC.options = none ∧
    DEFAULT_ACTION_SPEC.tag = some "action" :=
  ⟨rfl, rfl, rfl, rfl⟩

/-- C8: with an empty goal (and the main-character flag set),
`build_agent` succeeds, the goal name keys nothing in the registry and
appears nowhere in the component order, and the dependency mappings of
the options-perception and best-option components omit the goal name —
silently, with no error. -/
theorem build_agent_empty_goal_silently_omitted (c : AgentConfig)
    (model : LanguageModel) (memory : AssociativeMemory)
    (clock : MultiIntervalClock) (t : Int)
    (hmain : dictGetD c.extras "main_character" false = true)
    (hgoal : c.goal = "") :
    ∃ a, build_agent c model memory clock t = Except.ok a ∧
      (dictKeys a.context_components).contains "\nOverarching goal" = false ∧
      a.act_component.component_order.contains "\nOverarching goal" = false ∧
      (dictGet a.context_components
          (className ComponentKind.AvailableOptionsPerception)).map
          (fun comp => dictKeys comp.components) =
        some ["Observation", "ObservationSummary", "AllSimilarMemories"] ∧
      (dictGet a.context_components
          (className ComponentKind.BestOptionPerception)).map
          (fun comp => dictKeys comp.components) =
        some ["Observation", "ObservationSummary", "AllSimilarMemories",
              "AvailableOptionsPerception"] := by
  unfold build_agent
  rw [hmain]
  rw [if_neg (by decide)]
  simp only [if_neg (not_not_intro hgoal)]
  exact ⟨_, rfl, rfl, rfl, rfl, rfl⟩

/-- Witness for C8: entity "Ann" with an empty goal. -/
theorem build_agent_empty_goal_silently_omitted_witness :
    ∃ a, build_agent
        { name := "Ann", goal := "", extras := [("main_character", true)] }
        ⟨0⟩ ⟨0⟩ ⟨0⟩ 0 = Except.ok a ∧
      (dictKeys a.context_components).contains "\nOverarching goal" = false ∧
      a.act_component.component_order.contains "\nOverarching goal" = false ∧
      (dictGet a.context_components
          (className ComponentKind.AvailableOptionsPerception)).map
          (fun comp => dictKeys comp.components) =
        some ["Observation", "ObservationSummary", "AllSimilarMemories"] ∧
      (dictGet a.context_components
          (className ComponentKind.BestOptionPerception)).map
          (fun comp => dictKeys comp.components) =
        some ["Observation", "ObservationSummary", "AllSimilarMemories",
              "AvailableOptionsPerception"] :=
  build_agent_empty_goal_silently_omitted _ _ _ _ _ (by decide) rfl

/-- C9: `build_agent` deletes `update_time_interval` on entry and never
reads it, so two calls agreeing on config, model, memory and clock but
differing in the interval return identical agents. -/
theorem build_agent_ignores_update_time_interval (c : AgentConfig)
    (model : LanguageModel) (memory : AssociativeMemory)
    (clock : MultiIntervalClock) (t1 t2 : Int) :
    build_agent c model memory clock t1 = build_agent c model memory clock t2 :=
  rfl

/-- C10: the reminder closure returned by `get_pomodoro_reminder` ignores
both of its arguments and always returns the fixed string
`"{agent_name} should stay on topic: {overarching_goal}."`. -/
theorem get_pomodoro_reminder_constant {α β : Type}
    (overarching_goal agent_name : String) (chain_of_thought : α)
    (clock_now : β) :
    get_pomodoro_reminder overarching_goal agent_name chain_of_thought
        clock_now =
      agent_name ++ " should stay on topic: " ++ overarching_goal ++ "." :=
  rfl

end Concordia
